import Mathlib

/-!
Verification development for the Streamlit application `src/apps.py` of the
AgentGraph repository.  The file shallowly embeds the UI-event handlers of
that script: the two vector-database creation handlers, the sidebar / tab
readiness indicators, the API-key button gating, the chat-input handler and
the clear-chat handler.  External collaborators (`ChatBot.respond`,
`PrepareVectorDB.run`, the filesystem, `pyprojroot.here`, `os.getenv`) are
taken as parameters, since the script treats them as black boxes.
-/

namespace AgentGraphApp

/-- A scalar value read from the YAML configuration document.  The script
never inspects these values; it only copies them around, so an opaque-ish
sum of the scalar shapes used by the config suffices. -/
inductive ConfigVal where
  | vStr (s : String)
  | vNat (n : Nat)
deriving DecidableEq, Repr

/-- One section of the YAML mapping: key / value pairs. -/
abbrev SectionMap := List (String × ConfigVal)

/-- The loaded YAML document `tools_config.yml`: section name / section pairs. -/
abbrev AppConfig := List (String × SectionMap)

/-- Association-list lookup, as Python dict indexing (first match). -/
def lookupKey {α : Type} (m : List (String × α)) (k : String) : Option α :=
  (m.find? (fun p => p.1 == k)).map (fun p => p.2)

/-- `str(KeyError(k))` in Python renders as the repr of the key. -/
def keyErrorText (k : String) : String := "\x27" ++ k ++ "\x27"

/-- `app_config[sec][k]`: raises `KeyError` when either level is missing. -/
def getKey (cfg : AppConfig) (sec k : String) : Except String ConfigVal :=
  match lookupKey cfg sec with
  | none => .error (keyErrorText sec)
  | some m =>
    match lookupKey m k with
    | none => .error (keyErrorText k)
    | some v => .ok v

/-- The argument record of the `PrepareVectorDB(...)` constructor call, in
the keyword-argument order used by the script. -/
structure PrepareVectorDB where
  doc_dir : ConfigVal
  chunk_size : ConfigVal
  chunk_overlap : ConfigVal
  embedding_model : ConfigVal
  vectordb_dir : ConfigVal
  collection_name : ConfigVal
deriving DecidableEq, Repr

/-- One user-visible rendering produced by a database-creation handler. -/
inductive UIEvent where
  | info (s : String)
  | success (s : String)
  | error (s : String)
  | rerun
deriving DecidableEq, Repr

/-- The six `app_config["swiss_airline_policy_rag"][...]` reads of
`create_swiss_database`, in source order, and the constructor call
`PrepareVectorDB(doc_dir=..., chunk_size=..., ...)`. -/
def extractSwiss (cfg : AppConfig) : Except String PrepareVectorDB :=
  match getKey cfg "swiss_airline_policy_rag" "chunk_size" with
  | .error e => .error e
  | .ok chunk_size =>
  match getKey cfg "swiss_airline_policy_rag" "chunk_overlap" with
  | .error e => .error e
  | .ok chunk_overlap =>
  match getKey cfg "swiss_airline_policy_rag" "embedding_model" with
  | .error e => .error e
  | .ok embedding_model =>
  match getKey cfg "swiss_airline_policy_rag" "vectordb" with
  | .error e => .error e
  | .ok vectordb_dir =>
  match getKey cfg "swiss_airline_policy_rag" "collection_name" with
  | .error e => .error e
  | .ok collection_name =>
  match getKey cfg "swiss_airline_policy_rag" "unstructured_docs" with
  | .error e => .error e
  | .ok doc_dir =>
    .ok { doc_dir, chunk_size, chunk_overlap, embedding_model,
          vectordb_dir, collection_name }

/-- The six `app_config["stories_rag"][...]` reads of
`create_stories_database`, in source order, and the constructor call. -/
def extractStories (cfg : AppConfig) : Except String PrepareVectorDB :=
  match getKey cfg "stories_rag" "chunk_size" with
  | .error e => .error e
  | .ok chunk_size =>
  match getKey cfg "stories_rag" "chunk_overlap" with
  | .error e => .error e
  | .ok chunk_overlap =>
  match getKey cfg "stories_rag" "embedding_model" with
  | .error e => .error e
  | .ok embedding_model =>
  match getKey cfg "stories_rag" "vectordb" with
  | .error e => .error e
  | .ok vectordb_dir =>
  match getKey cfg "stories_rag" "collection_name" with
  | .error e => .error e
  | .ok collection_name =>
  match getKey cfg "stories_rag" "unstructured_docs" with
  | .error e => .error e
  | .ok doc_dir =>
    .ok { doc_dir, chunk_size, chunk_overlap, embedding_model,
          vectordb_dir, collection_name }

def processingMsg : String := "Processing documents and creating embeddings..."

def swissSuccessMsg : String := "✅ Swiss Airline Policy database created successfully!"

def storiesSuccessMsg : String := "✅ Stories database created successfully!"

/-- `f"Error creating Swiss database: {str(e)}"` -/
def swissErrText (e : String) : String := "Error creating Swiss database: " ++ e

/-- `f"Error creating Stories database: {str(e)}"` -/
def storiesErrText (e : String) : String := "Error creating Stories database: " ++ e

/-- `create_swiss_database(app_config)`: the try-block extracts the six
config fields, shows the progress info, calls `run()` once and shows the
success banner plus `st.rerun()`; the except-block renders the error text.
Returns the rendered events together with the trace of `run()` calls
(identified by the receiver instance). -/
def create_swiss_database (cfg : AppConfig)
    (run : PrepareVectorDB → Except String Unit) :
    List UIEvent × List PrepareVectorDB :=
  match extractSwiss cfg with
  | .error e => ([.error (swissErrText e)], [])
  | .ok inst =>
    match run inst with
    | .error e => ([.info processingMsg, .error (swissErrText e)], [inst])
    | .ok _ => ([.info processingMsg, .success swissSuccessMsg, .rerun], [inst])

/-- `create_stories_database(app_config)`, same shape as the Swiss handler. -/
def create_stories_database (cfg : AppConfig)
    (run : PrepareVectorDB → Except String Unit) :
    List UIEvent × List PrepareVectorDB :=
  match extractStories cfg with
  | .error e => ([.error (storiesErrText e)], [])
  | .ok inst =>
    match run inst with
    | .error e => ([.info processingMsg, .error (storiesErrText e)], [inst])
    | .ok _ => ([.info processingMsg, .success storiesSuccessMsg, .rerun], [inst])

/-- The combined outcome of the try-block body of a creation handler:
config extraction followed by the single `run()` call. -/
def swissOutcome (cfg : AppConfig)
    (run : PrepareVectorDB → Except String Unit) : Except String Unit :=
  match extractSwiss cfg with
  | .error e => .error e
  | .ok inst => run inst

/-- Stories analogue of `swissOutcome`. -/
def storiesOutcome (cfg : AppConfig)
    (run : PrepareVectorDB → Except String Unit) : Except String Unit :=
  match extractStories cfg with
  | .error e => .error e
  | .ok inst => run inst

/-- `bool(os.getenv("OPENAI_API_KEY"))`: `None` (unset) and the empty
string are falsy; any non-empty string is truthy. -/
def apiKeyAvailable (v : Option String) : Bool :=
  match v with
  | none => false
  | some s => !(s == "")

/-- `st.button(..., disabled=d)` returns `False` whenever the button is
disabled, so a disabled button never fires its click branch. -/
def stButton (clicked disabled : Bool) : Bool := clicked && !disabled

/-- The readiness badge shown for a collection. -/
inductive StatusBadge where
  | ready
  | notCreated
deriving DecidableEq, Repr

/-- `swiss_db_path = app_config["swiss_airline_policy_rag"]["vectordb"]`
followed by `os.path.exists(here(swiss_db_path))`; `hereFn` models
`pyprojroot.here` applied to the raw config value and `pathExists` models
`os.path.exists`.  The same expression backs the sidebar badge and the
tab-2 `swiss_exists` status line. -/
def swissReadiness (cfg : AppConfig) (hereFn : ConfigVal → String)
    (pathExists : String → Bool) : Except String StatusBadge :=
  match getKey cfg "swiss_airline_policy_rag" "vectordb" with
  | .error e => .error e
  | .ok v => .ok (if pathExists (hereFn v) then .ready else .notCreated)

/-- Stories analogue of `swissReadiness`. -/
def storiesReadiness (cfg : AppConfig) (hereFn : ConfigVal → String)
    (pathExists : String → Bool) : Except String StatusBadge :=
  match getKey cfg "stories_rag" "vectordb" with
  | .error e => .error e
  | .ok v => .ok (if pathExists (hereFn v) then .ready else .notCreated)

/-- The six buttons of one script run that can invoke a creation handler:
sidebar per-collection buttons, the sidebar bulk button, the tab-2
per-collection buttons and the tab-2 bulk button. -/
structure Clicks where
  sidebarSwiss : Bool
  sidebarStories : Bool
  sidebarAll : Bool
  tab2Swiss : Bool
  tab2Stories : Bool
  tab2All : Bool
deriving DecidableEq, Repr

/-- All `PrepareVectorDB.run` calls made during one script run, gathered
over the six create buttons.  Every button passes
`disabled=not api_key_available`; both the sidebar and tab 2 recompute
`api_key_available = bool(os.getenv("OPENAI_API_KEY"))` and both load the
same config file, so one load outcome serves both. -/
def pageRunCalls (envKey : Option String) (cfgLoad : Except String AppConfig)
    (run : PrepareVectorDB → Except String Unit) (clicks : Clicks) :
    List PrepareVectorDB :=
  match cfgLoad with
  | .error _ => []
  | .ok cfg =>
    let ak := apiKeyAvailable envKey
    (if stButton clicks.sidebarSwiss (!ak) then (create_swiss_database cfg run).2 else []) ++
    (if stButton clicks.sidebarStories (!ak) then (create_stories_database cfg run).2 else []) ++
    (if stButton clicks.sidebarAll (!ak) then
      (create_swiss_database cfg run).2 ++ (create_stories_database cfg run).2 else []) ++
    (if stButton clicks.tab2Swiss (!ak) then (create_swiss_database cfg run).2 else []) ++
    (if stButton clicks.tab2Stories (!ak) then (create_stories_database cfg run).2 else []) ++
    (if stButton clicks.tab2All (!ak) then
      (create_swiss_database cfg run).2 ++ (create_stories_database cfg run).2 else [])

/-- One entry of `st.session_state.messages`: a dict with keys `role`,
`content` and `avatar`.  The content is `Option String` because the
assistant content is taken from a gradio pair's second slot, which may be
`None`. -/
structure Message where
  role : String
  content : Option String
  avatar : String
deriving DecidableEq, Repr

/-- One legacy-format history entry `(user_text, bot_text)`; both slots are
optional strings in the gradio convention. -/
abbrev GradioPair := Option String × Option String

/-- The UI session state: the displayed message list and the parallel
legacy-format history `st.session_state.gradio_chat_history`. -/
structure SessionState where
  messages : List Message
  gradio_chat_history : List GradioPair
deriving DecidableEq, Repr

/-- The initial session state installed on first script run. -/
def initialState : SessionState := ⟨[], []⟩

/-- What a `ChatBot.respond(history, prompt)` call can do: raise, or return
a 2-tuple whose second component is the updated history (possibly `None`). -/
inductive RespondOutcome where
  | raises (msg : String)
  | returns (wFst : Option String) (hist : Option (List GradioPair))
deriving DecidableEq, Repr

/-- `"images/AI_RT.png" if os.path.exists("images/AI_RT.png") else "🧑‍💻"` -/
def userAvatarOf (aiRTExists : Bool) : String :=
  if aiRTExists then "images/AI_RT.png" else "🧑‍💻"

/-- `"images/openai.png" if os.path.exists("images/openai.png") else "🤖"` -/
def botAvatarOf (openaiExists : Bool) : String :=
  if openaiExists then "images/openai.png" else "🤖"

/-- The user message dict appended for a submitted prompt. -/
def userEntry (prompt : String) (aiRTExists : Bool) : Message :=
  { role := "user", content := some prompt, avatar := userAvatarOf aiRTExists }

/-- The message list right after the user message is appended. -/
def msgsAfterUser (st : SessionState) (prompt : String) (aiRTExists : Bool) :
    List Message :=
  st.messages ++ [userEntry prompt aiRTExists]

/-- `[(msg["content"], None) for msg in st.session_state.messages if
msg["role"] == "user"]` -/
def gradioFormatOf (msgs : List Message) : List GradioPair :=
  (msgs.filter (fun m => m.role == "user")).map
    (fun m => (m.content, (none : Option String)))

/-- The stored legacy history at the moment `ChatBot.respond` is called:
when the user-turn count of the (already user-extended) message list
exceeds the stored history's length, the handler replaces the stored
history with `gradio_format[:-1]`, else it leaves it untouched. -/
def syncedHistory (st : SessionState) (prompt : String) (aiRTExists : Bool) :
    List GradioPair :=
  let gradioFormat := gradioFormatOf (msgsAfterUser st prompt aiRTExists)
  if gradioFormat.length > st.gradio_chat_history.length then
    gradioFormat.dropLast
  else
    st.gradio_chat_history

/-- The fixed fallback assistant content used when the updated history is
`None` or empty. -/
def fallbackContent : String :=
  "I\x27m sorry, I couldn\x27t process your request at the moment."

/-- The chat-input handler (the `if prompt := st.chat_input(...)` block):
appends the user message, syncs the legacy history, calls
`ChatBot.respond` once and appends the assistant entry chosen by the
outcome.  Besides the new state it returns the trace of
`(history, prompt)` arguments passed to `ChatBot.respond`. -/
def chatHandlerTraced (st : SessionState) (prompt : String)
    (respond : List GradioPair → String → RespondOutcome)
    (aiRTExists openaiExists : Bool) :
    SessionState × List (List GradioPair × String) :=
  let msgs1 := msgsAfterUser st prompt aiRTExists
  let hist1 := syncedHistory st prompt aiRTExists
  match respond hist1 prompt with
  | .raises e =>
    (⟨msgs1 ++ [⟨"assistant", some ("An error occurred: " ++ e), "⚠️"⟩], hist1⟩,
     [(hist1, prompt)])
  | .returns _ (some (p :: rest)) =>
    (⟨msgs1 ++ [⟨"assistant", ((p :: rest).getLastD (none, none)).2,
                 botAvatarOf openaiExists⟩], p :: rest⟩,
     [(hist1, prompt)])
  | .returns _ _ =>
    (⟨msgs1 ++ [⟨"assistant", some fallbackContent, "🤖"⟩], hist1⟩,
     [(hist1, prompt)])

/-- The chat-input handler's effect on the session state. -/
def chatHandler (st : SessionState) (prompt : String)
    (respond : List GradioPair → String → RespondOutcome)
    (aiRTExists openaiExists : Bool) : SessionState :=
  (chatHandlerTraced st prompt respond aiRTExists openaiExists).1

/-- The Clear Chat button handler: both state lists are reset to `[]`. -/
def clearChat (_st : SessionState) : SessionState := ⟨[], []⟩

/-! ## Concrete fixtures used by witnesses and counterexamples -/

/-- A concrete `swiss_airline_policy_rag` section with the six fields. -/
def swissSec : SectionMap :=
  [("chunk_size", .vNat 500), ("chunk_overlap", .vNat 100),
   ("embedding_model", .vStr "text-embedding-3-small"),
   ("vectordb", .vStr "data/airline_policy_vectordb"),
   ("collection_name", .vStr "rag-chroma"),
   ("unstructured_docs", .vStr "data/unstructured_docs/swiss_airline_policy")]

/-- A concrete `stories_rag` section with the six fields. -/
def storiesSec : SectionMap :=
  [("chunk_size", .vNat 500), ("chunk_overlap", .vNat 100),
   ("embedding_model", .vStr "text-embedding-3-small"),
   ("vectordb", .vStr "data/stories_vectordb"),
   ("collection_name", .vStr "rag-chroma"),
   ("unstructured_docs", .vStr "data/unstructured_docs/stories")]

/-- A concrete loaded configuration with both sections. -/
def cfgDemo : AppConfig :=
  [("swiss_airline_policy_rag", swissSec), ("stories_rag", storiesSec)]

/-- A `PrepareVectorDB.run` that completes normally. -/
def runOk : PrepareVectorDB → Except String Unit := fun _ => .ok ()

/-- A `PrepareVectorDB.run` that raises. -/
def runFail : PrepareVectorDB → Except String Unit := fun _ => .error "boom"

/-- `pyprojroot.here` modelled as returning string-valued paths verbatim. -/
def hereDemo : ConfigVal → String :=
  fun v => match v with | .vStr s => s | .vNat _ => ""

/-- A filesystem on which only the Swiss vector-store directory exists. -/
def fsDemo : String → Bool := fun s => s == "data/airline_policy_vectordb"

/-! ## Helper lemmas -/

/-- Every branch of the chat handler appends exactly the user entry and one
assistant entry, and calls `ChatBot.respond` exactly once, on the synced
history and the prompt. -/
theorem chatHandlerTraced_shape (st : SessionState) (prompt : String)
    (respond : List GradioPair → String → RespondOutcome)
    (aiRTExists openaiExists : Bool) :
    ∃ a : Message, a.role = "assistant" ∧
      (chatHandlerTraced st prompt respond aiRTExists openaiExists).1.messages =
        st.messages ++ [userEntry prompt aiRTExists, a] ∧
      (chatHandlerTraced st prompt respond aiRTExists openaiExists).2 =
        [(syncedHistory st prompt aiRTExists, prompt)] := by
  cases h : respond (syncedHistory st prompt aiRTExists) prompt with
  | raises e =>
    exact ⟨⟨"assistant", some ("An error occurred: " ++ e), "⚠️"⟩, rfl,
      by simp [chatHandlerTraced, h, msgsAfterUser],
      by simp [chatHandlerTraced, h]⟩
  | returns w hist =>
    match hist with
    | none =>
      exact ⟨⟨"assistant", some fallbackContent, "🤖"⟩, rfl,
        by simp [chatHandlerTraced, h, msgsAfterUser],
        by simp [chatHandlerTraced, h]⟩
    | some [] =>
      exact ⟨⟨"assistant", some fallbackContent, "🤖"⟩, rfl,
        by simp [chatHandlerTraced, h, msgsAfterUser],
        by simp [chatHandlerTraced, h]⟩
    | some (p :: rest) =>
      exact ⟨⟨"assistant", ((p :: rest).getLastD (none, none)).2,
          botAvatarOf openaiExists⟩, rfl,
        by simp [chatHandlerTraced, h, msgsAfterUser],
        by simp [chatHandlerTraced, h]⟩

/-! ## Claim theorems -/

/-- C1: for every submitted prompt, after the handler finishes, the message
list is the old list followed by the user's message (role `user`, content
the prompt) and then some assistant entry, whatever `ChatBot.respond`
does (raises, returns an empty or `None` history, or succeeds). -/
theorem chat_appends_user_then_assistant (st : SessionState) (prompt : String)
    (respond : List GradioPair → String → RespondOutcome)
    (aiRTExists openaiExists : Bool) :
    ∃ a : Message,
      (chatHandler st prompt respond aiRTExists openaiExists).messages =
        st.messages ++
          [⟨"user", some prompt, userAvatarOf aiRTExists⟩, a] ∧
      a.role = "assistant" := by
  obtain ⟨a, hrole, hmsgs, -⟩ :=
    chatHandlerTraced_shape st prompt respond aiRTExists openaiExists
  exact ⟨a, by simpa [userEntry, chatHandler] using hmsgs, hrole⟩

/-- C10: the Clear Chat handler resets both the message list and the
legacy-format history to the empty list in the same event. -/
theorem clear_chat_resets_both (st : SessionState) :
    (clearChat st).messages = [] ∧ (clearChat st).gradio_chat_history = [] :=
  ⟨rfl, rfl⟩

/-- C5: each database-creation handler invokes `PrepareVectorDB.run` at
most once per event, whatever the configuration and whatever `run` does
(in particular no retry after a failure). -/
theorem run_called_at_most_once (cfg : AppConfig)
    (run : PrepareVectorDB → Except String Unit) :
    (create_swiss_database cfg run).2.length ≤ 1 ∧
    (create_stories_database cfg run).2.length ≤ 1 := by
  constructor
  · unfold create_swiss_database
    cases extractSwiss cfg with
    | error e => simp
    | ok inst =>
      cases h : run inst with
      | error e => simp [h]
      | ok u => simp [h]
  · unfold create_stories_database
    cases extractStories cfg with
    | error e => simp
    | ok inst =>
      cases h : run inst with
      | error e => simp [h]
      | ok u => simp [h]

/-- C2: any exception raised during configuration extraction or
`PrepareVectorDB.run` is caught inside the creation handler and rendered
as inline error text carrying the exception message (and no success banner
is shown); when the body completes without raising, no error text is
rendered and the success banner is shown.  The handlers are total
functions into rendered events, so no exception escapes them. -/
theorem db_creation_error_handling (cfg : AppConfig)
    (run : PrepareVectorDB → Except String Unit) :
    (∀ e, swissOutcome cfg run = .error e →
        UIEvent.error (swissErrText e) ∈ (create_swiss_database cfg run).1 ∧
        ∀ s, UIEvent.success s ∉ (create_swiss_database cfg run).1) ∧
    (swissOutcome cfg run = .ok () →
        (∀ s, UIEvent.error s ∉ (create_swiss_database cfg run).1) ∧
        UIEvent.success swissSuccessMsg ∈ (create_swiss_database cfg run).1) ∧
    (∀ e, storiesOutcome cfg run = .error e →
        UIEvent.error (storiesErrText e) ∈ (create_stories_database cfg run).1 ∧
        ∀ s, UIEvent.success s ∉ (create_stories_database cfg run).1) ∧
    (storiesOutcome cfg run = .ok () →
        (∀ s, UIEvent.error s ∉ (create_stories_database cfg run).1) ∧
        UIEvent.success storiesSuccessMsg ∈ (create_stories_database cfg run).1) := by
  refine ⟨?_, ?_, ?_, ?_⟩
  · intro e h
    cases hx : extractSwiss cfg with
    | error e2 =>
      simp [swissOutcome, hx] at h
      subst h
      simp [create_swiss_database, hx]
    | ok inst =>
      cases hr : run inst with
      | error e2 =>
        simp [swissOutcome, hx, hr] at h
        subst h
        simp [create_swiss_database, hx, hr]
      | ok u => simp [swissOutcome, hx, hr] at h
  · intro h
    cases hx : extractSwiss cfg with
    | error e2 => simp [swissOutcome, hx] at h
    | ok inst =>
      cases hr : run inst with
      | error e2 => simp [swissOutcome, hx, hr] at h
      | ok u => simp [create_swiss_database, hx, hr]
  · intro e h
    cases hx : extractStories cfg with
    | error e2 =>
      simp [storiesOutcome, hx] at h
      subst h
      simp [create_stories_database, hx]
    | ok inst =>
      cases hr : run inst with
      | error e2 =>
        simp [storiesOutcome, hx, hr] at h
        subst h
        simp [create_stories_database, hx, hr]
      | ok u => simp [storiesOutcome, hx, hr] at h
  · intro h
    cases hx : extractStories cfg with
    | error e2 => simp [storiesOutcome, hx] at h
    | ok inst =>
      cases hr : run inst with
      | error e2 => simp [storiesOutcome, hx, hr] at h
      | ok u => simp [create_stories_database, hx, hr]

/-- Witness for C2 at a concrete configuration with a succeeding and a
raising `run`. -/
theorem db_creation_error_handling_witness :
    UIEvent.success swissSuccessMsg ∈ (create_swiss_database cfgDemo runOk).1 ∧
    UIEvent.error (swissErrText "boom") ∈ (create_swiss_database cfgDemo runFail).1 ∧
    UIEvent.success storiesSuccessMsg ∈ (create_stories_database cfgDemo runOk).1 ∧
    UIEvent.error (storiesErrText "boom") ∈ (create_stories_database cfgDemo runFail).1 :=
  ⟨((db_creation_error_handling cfgDemo runOk).2.1 rfl).2,
   ((db_creation_error_handling cfgDemo runFail).1 "boom" rfl).1,
   ((db_creation_error_handling cfgDemo runOk).2.2.2 rfl).2,
   ((db_creation_error_handling cfgDemo runFail).2.2.1 "boom" rfl).1⟩

/-- C3: the chat handler calls `ChatBot.respond` exactly once, on the
stored (synced) legacy history and the prompt; when the returned pair's
updated history is non-empty, the last pair's second element becomes the
content of the new assistant message and the updated history replaces the
stored legacy history. -/
theorem chat_dispatch_contract (st : SessionState) (prompt : String)
    (respond : List GradioPair → String → RespondOutcome)
    (aiRTExists openaiExists : Bool) :
    (chatHandlerTraced st prompt respond aiRTExists openaiExists).2 =
      [(syncedHistory st prompt aiRTExists, prompt)] ∧
    ∀ w p rest,
      respond (syncedHistory st prompt aiRTExists) prompt =
          .returns w (some (p :: rest)) →
      (chatHandler st prompt respond aiRTExists openaiExists).messages =
        msgsAfterUser st prompt aiRTExists ++
          [⟨"assistant", ((p :: rest).getLastD (none, none)).2,
            botAvatarOf openaiExists⟩] ∧
      (chatHandler st prompt respond aiRTExists openaiExists).gradio_chat_history =
        p :: rest := by
  constructor
  · obtain ⟨a, -, -, htr⟩ :=
      chatHandlerTraced_shape st prompt respond aiRTExists openaiExists
    exact htr
  · intro w p rest h
    constructor <;> simp [chatHandler, chatHandlerTraced, h]

/-- A concrete `ChatBot.respond` returning a one-round history. -/
def demoRespond : List GradioPair → String → RespondOutcome :=
  fun _ _ => .returns (some "") (some [(some "hi", some "hello there")])

/-- Witness for C3 on the initial state and a concrete respond. -/
theorem chat_dispatch_contract_witness :
    (chatHandlerTraced initialState "hi" demoRespond false false).2 =
      [([], "hi")] ∧
    (chatHandler initialState "hi" demoRespond false false).gradio_chat_history =
      [(some "hi", some "hello there")] := by
  obtain ⟨h1, h2⟩ := chat_dispatch_contract initialState "hi" demoRespond false false
  have h3 := h2 (some "") (some "hi", some "hello there") [] rfl
  exact ⟨h1.trans rfl, h3.2⟩

/-- C4: for each collection, the readiness badge shows ready if and only
if `os.path.exists(here(vectordb))` holds at render time, and the badge
depends on the filesystem only through that one path. -/
theorem readiness_iff_path_exists (cfg : AppConfig)
    (hereFn : ConfigVal → String) (fs fs2 : String → Bool)
    (vS vT : ConfigVal)
    (hS : getKey cfg "swiss_airline_policy_rag" "vectordb" = .ok vS)
    (hT : getKey cfg "stories_rag" "vectordb" = .ok vT) :
    (swissReadiness cfg hereFn fs = .ok .ready ↔ fs (hereFn vS) = true) ∧
    (storiesReadiness cfg hereFn fs = .ok .ready ↔ fs (hereFn vT) = true) ∧
    (fs (hereFn vS) = fs2 (hereFn vS) →
        swissReadiness cfg hereFn fs = swissReadiness cfg hereFn fs2) ∧
    (fs (hereFn vT) = fs2 (hereFn vT) →
        storiesReadiness cfg hereFn fs = storiesReadiness cfg hereFn fs2) := by
  refine ⟨?_, ?_, ?_, ?_⟩
  · simp only [swissReadiness, hS]
    cases hfs : fs (hereFn vS) <;> simp [hfs]
  · simp only [storiesReadiness, hT]
    cases hfs : fs (hereFn vT) <;> simp [hfs]
  · intro hagree
    simp only [swissReadiness, hS, hagree]
  · intro hagree
    simp only [storiesReadiness, hT, hagree]

/-- Witness for C4 on a filesystem where only the Swiss store exists. -/
theorem readiness_iff_path_exists_witness :
    swissReadiness cfgDemo hereDemo fsDemo = .ok .ready ∧
    storiesReadiness cfgDemo hereDemo fsDemo = .ok .notCreated := by
  have h := readiness_iff_path_exists cfgDemo hereDemo fsDemo fsDemo
      (.vStr "data/airline_policy_vectordb") (.vStr "data/stories_vectordb") rfl rfl
  exact ⟨h.1.mpr rfl, rfl⟩

/-- C6: when the six per-collection fields are present in the loaded
configuration, each creation handler passes exactly those values,
unchanged, to the `PrepareVectorDB` constructor (with `unstructured_docs`
as `doc_dir` and `vectordb` as `vectordb_dir`) and calls `run` on the
resulting instance. -/
theorem config_fields_passed_unchanged (cfg : AppConfig)
    (run : PrepareVectorDB → Except String Unit)
    (cs co em vd cn ud cs2 co2 em2 vd2 cn2 ud2 : ConfigVal)
    (h1 : getKey cfg "swiss_airline_policy_rag" "chunk_size" = .ok cs)
    (h2 : getKey cfg "swiss_airline_policy_rag" "chunk_overlap" = .ok co)
    (h3 : getKey cfg "swiss_airline_policy_rag" "embedding_model" = .ok em)
    (h4 : getKey cfg "swiss_airline_policy_rag" "vectordb" = .ok vd)
    (h5 : getKey cfg "swiss_airline_policy_rag" "collection_name" = .ok cn)
    (h6 : getKey cfg "swiss_airline_policy_rag" "unstructured_docs" = .ok ud)
    (g1 : getKey cfg "stories_rag" "chunk_size" = .ok cs2)
    (g2 : getKey cfg "stories_rag" "chunk_overlap" = .ok co2)
    (g3 : getKey cfg "stories_rag" "embedding_model" = .ok em2)
    (g4 : getKey cfg "stories_rag" "vectordb" = .ok vd2)
    (g5 : getKey cfg "stories_rag" "collection_name" = .ok cn2)
    (g6 : getKey cfg "stories_rag" "unstructured_docs" = .ok ud2) :
    (create_swiss_database cfg run).2 =
      [{ doc_dir := ud, chunk_size := cs, chunk_overlap := co,
         embedding_model := em, vectordb_dir := vd, collection_name := cn }] ∧
    (create_stories_database cfg run).2 =
      [{ doc_dir := ud2, chunk_size := cs2, chunk_overlap := co2,
         embedding_model := em2, vectordb_dir := vd2, collection_name := cn2 }] := by
  have hS : extractSwiss cfg =
      .ok { doc_dir := ud, chunk_size := cs, chunk_overlap := co,
            embedding_model := em, vectordb_dir := vd, collection_name := cn } := by
    simp [extractSwiss, h1, h2, h3, h4, h5, h6]
  have hT : extractStories cfg =
      .ok { doc_dir := ud2, chunk_size := cs2, chunk_overlap := co2,
            embedding_model := em2, vectordb_dir := vd2, collection_name := cn2 } := by
    simp [extractStories, g1, g2, g3, g4, g5, g6]
  constructor
  · cases hr : run ⟨ud, cs, co, em, vd, cn⟩ with
    | error e => simp [create_swiss_database, hS, hr]
    | ok u => simp [create_swiss_database, hS, hr]
  · cases hr : run ⟨ud2, cs2, co2, em2, vd2, cn2⟩ with
    | error e => simp [create_stories_database, hT, hr]
    | ok u => simp [create_stories_database, hT, hr]

/-- Witness for C6 on the concrete demo configuration. -/
theorem config_fields_passed_unchanged_witness :
    (create_swiss_database cfgDemo runOk).2 =
      [{ doc_dir := .vStr "data/unstructured_docs/swiss_airline_policy",
         chunk_size := .vNat 500, chunk_overlap := .vNat 100,
         embedding_model := .vStr "text-embedding-3-small",
         vectordb_dir := .vStr "data/airline_policy_vectordb",
         collection_name := .vStr "rag-chroma" }] ∧
    (create_stories_database cfgDemo runOk).2 =
      [{ doc_dir := .vStr "data/unstructured_docs/stories",
         chunk_size := .vNat 500, chunk_overlap := .vNat 100,
         embedding_model := .vStr "text-embedding-3-small",
         vectordb_dir := .vStr "data/stories_vectordb",
         collection_name := .vStr "rag-chroma" }] :=
  config_fields_passed_unchanged cfgDemo runOk
    (.vNat 500) (.vNat 100) (.vStr "text-embedding-3-small")
    (.vStr "data/airline_policy_vectordb") (.vStr "rag-chroma")
    (.vStr "data/unstructured_docs/swiss_airline_policy")
    (.vNat 500) (.vNat 100) (.vStr "text-embedding-3-small")
    (.vStr "data/stories_vectordb") (.vStr "rag-chroma")
    (.vStr "data/unstructured_docs/stories")
    rfl rfl rfl rfl rfl rfl rfl rfl rfl rfl rfl rfl

/-- C8: when `OPENAI_API_KEY` is unset or empty, every create button is
disabled, so no reachable UI event of the script run invokes
`PrepareVectorDB.run`. -/
theorem no_run_without_api_key (envKey : Option String)
    (cfgLoad : Except String AppConfig)
    (run : PrepareVectorDB → Except String Unit) (clicks : Clicks)
    (h : envKey = none ∨ envKey = some "") :
    pageRunCalls envKey cfgLoad run clicks = [] := by
  have hak : apiKeyAvailable envKey = false := by
    rcases h with h | h <;> simp [h, apiKeyAvailable]
  cases cfgLoad with
  | error e => simp [pageRunCalls]
  | ok cfg => simp [pageRunCalls, hak, stButton]

/-- All six create buttons clicked in one script run. -/
def clicksAll : Clicks := ⟨true, true, true, true, true, true⟩

/-- Witness for C8: even with every create button clicked, no `run` call
happens when the key is unset or empty. -/
theorem no_run_without_api_key_witness :
    pageRunCalls none (.ok cfgDemo) runOk clicksAll = [] ∧
    pageRunCalls (some "") (.ok cfgDemo) runOk clicksAll = [] :=
  ⟨no_run_without_api_key none (.ok cfgDemo) runOk clicksAll (Or.inl rfl),
   no_run_without_api_key (some "") (.ok cfgDemo) runOk clicksAll (Or.inr rfl)⟩

/-- `gradio_format` of a message list extended by the new user entry is
the user turns of the old list plus the new prompt pair. -/
theorem gradioFormatOf_append_user (msgs : List Message) (prompt : String)
    (aiRT : Bool) :
    gradioFormatOf (msgs ++ [userEntry prompt aiRT]) =
      gradioFormatOf msgs ++ [(some prompt, none)] := by
  simp [gradioFormatOf, userEntry, List.filter_append]

/-- A `ChatBot.respond` whose updated history is as long as the next
round's user-turn count but does not mention the first prompt. -/
def cexRespond : List GradioPair → String → RespondOutcome :=
  fun _ _ => .returns (some "")
    (some [(some "x", some "y"), (some "z", some "w")])

/-- The session state reached from the initial state by one chat round
against `cexRespond`. -/
def cexSt1 : SessionState := chatHandler initialState "p1" cexRespond false false

/-- Counterexample to C7's sync clause: in the second round the handler
passes `ChatBot.respond` a history that contains no pair for the prior
user turn `p1`, because the length guard blocks the resync. -/
theorem sync_clause_counterexample :
    (⟨"user", some "p1", userAvatarOf false⟩ : Message) ∈ cexSt1.messages ∧
    (chatHandlerTraced cexSt1 "p2" cexRespond false false).2 =
      [([(some "x", some "y"), (some "z", some "w")], "p2")] ∧
    (([(some "x", some "y"), (some "z", some "w")] : List GradioPair).all
      (fun q => !(q.1 == some "p1"))) = true := by
  decide

/-- C7 amended: every message appended by any handler has role `user` or
`assistant`; the chat handler is append-only, adding exactly the user
entry and one assistant entry; it calls `ChatBot.respond` exactly once on
the synced history; and that synced history equals the prior user turns of
the message list exactly when the user-turn count (including the new
prompt) exceeds the stored legacy history's length — otherwise the stored
(backend-returned) history is passed unchanged. -/
theorem session_state_invariants (st : SessionState) (prompt : String)
    (respond : List GradioPair → String → RespondOutcome)
    (aiRTExists openaiExists : Bool)
    (hroles : ∀ m ∈ st.messages, m.role = "user" ∨ m.role = "assistant") :
    (∀ m ∈ (chatHandler st prompt respond aiRTExists openaiExists).messages,
        m.role = "user" ∨ m.role = "assistant") ∧
    (∃ a : Message, a.role = "assistant" ∧
      (chatHandler st prompt respond aiRTExists openaiExists).messages =
        st.messages ++ [userEntry prompt aiRTExists, a]) ∧
    (chatHandlerTraced st prompt respond aiRTExists openaiExists).2 =
      [(syncedHistory st prompt aiRTExists, prompt)] ∧
    ((gradioFormatOf (msgsAfterUser st prompt aiRTExists)).length >
        st.gradio_chat_history.length →
      syncedHistory st prompt aiRTExists = gradioFormatOf st.messages) ∧
    (¬ (gradioFormatOf (msgsAfterUser st prompt aiRTExists)).length >
        st.gradio_chat_history.length →
      syncedHistory st prompt aiRTExists = st.gradio_chat_history) := by
  obtain ⟨a, harole, hmsgs, htr⟩ :=
    chatHandlerTraced_shape st prompt respond aiRTExists openaiExists
  refine ⟨?_, ⟨a, harole, by simpa [chatHandler] using hmsgs⟩, htr, ?_, ?_⟩
  · intro m hm
    rw [chatHandler, hmsgs] at hm
    rcases List.mem_append.mp hm with hm | hm
    · exact hroles m hm
    · rcases List.mem_cons.mp hm with hm | hm
      · left; rw [hm]; rfl
      · rcases List.mem_cons.mp hm with hm | hm
        · right; rw [hm]; exact harole
        · exact absurd hm (List.not_mem_nil m)
  · intro hlen
    rw [syncedHistory]
    simp only [hlen, if_pos]
    rw [msgsAfterUser, gradioFormatOf_append_user]
    simp
  · intro hlen
    rw [syncedHistory]
    simp [hlen]

/-- Witness for C7's amended theorem at the initial state. -/
theorem session_state_invariants_witness :
    (∀ m ∈ (chatHandler initialState "p1" cexRespond false false).messages,
        m.role = "user" ∨ m.role = "assistant") ∧
    (chatHandlerTraced initialState "p1" cexRespond false false).2 =
      [([], "p1")] := by
  have h := session_state_invariants initialState "p1" cexRespond false false
      (by intro m hm; cases hm)
  exact ⟨h.1, h.2.2.1.trans (by decide)⟩

/-- A `ChatBot.respond` for the first counterexample round, echoing the
prompt with an answer. -/
def cexRespondRound1 : List GradioPair → String → RespondOutcome :=
  fun _ _ => .returns (some "") (some [(some "p1", some "a1")])

/-- A `ChatBot.respond` that returns `None` as updated history. -/
def cexRespondNone : List GradioPair → String → RespondOutcome :=
  fun _ _ => .returns (some "") none

/-- The state after one successful round against `cexRespondRound1`. -/
def cexSt9 : SessionState :=
  chatHandler initialState "p1" cexRespondRound1 false false

/-- Counterexample to C9: with the updated history `None`, the fallback
assistant message is appended, yet the stored legacy history *is*
modified by the handler — the pre-call sync replaced it. -/
theorem fallback_history_counterexample :
    cexSt9.gradio_chat_history = [(some "p1", some "a1")] ∧
    (chatHandler cexSt9 "p2" cexRespondNone false false).messages =
      cexSt9.messages ++
        [userEntry "p2" false, ⟨"assistant", some fallbackContent, "🤖"⟩] ∧
    (chatHandler cexSt9 "p2" cexRespondNone false false).gradio_chat_history =
      [(some "p1", none)] ∧
    ¬ (chatHandler cexSt9 "p2" cexRespondNone false false).gradio_chat_history =
      cexSt9.gradio_chat_history := by
  decide

/-- C9 amended: when `ChatBot.respond` returns with a `None` or empty
updated history, the handler appends the fixed fallback assistant message
and leaves the stored legacy history at the value it had when `respond`
was called (the pre-call sync may already have replaced it). -/
theorem fallback_behavior (st : SessionState) (prompt : String)
    (respond : List GradioPair → String → RespondOutcome)
    (aiRTExists openaiExists : Bool) (w : Option String)
    (h : respond (syncedHistory st prompt aiRTExists) prompt = .returns w none ∨
         respond (syncedHistory st prompt aiRTExists) prompt =
           .returns w (some [])) :
    (chatHandler st prompt respond aiRTExists openaiExists).messages =
      msgsAfterUser st prompt aiRTExists ++
        [⟨"assistant", some fallbackContent, "🤖"⟩] ∧
    (chatHandler st prompt respond aiRTExists openaiExists).gradio_chat_history =
      syncedHistory st prompt aiRTExists := by
  rcases h with h | h <;> constructor <;> simp [chatHandler, chatHandlerTraced, h]

/-- Witness for C9's amended theorem. -/
theorem fallback_behavior_witness :
    (chatHandler initialState "p2" cexRespondNone false false).messages =
      msgsAfterUser initialState "p2" false ++
        [⟨"assistant", some fallbackContent, "🤖"⟩] ∧
    (chatHandler initialState "p2" cexRespondNone false false).gradio_chat_history =
      syncedHistory initialState "p2" false :=
  fallback_behavior initialState "p2" cexRespondNone false false (some "")
    (Or.inl rfl)

end AgentGraphApp
